import Mathlib

/-!
Verification development for the `video_explainer` core data models
(`src/models.py`) and the pipeline state machine / validation rules its
specification describes around them.

Embedding conventions:
* Python `str` becomes `String`, `int` becomes `Int`, `float` becomes `ℚ`
  (every duration/timestamp the development evaluates is exactly
  representable), `X | None` becomes `Option X`, `list` becomes `List`,
  and `dict[str, T]` becomes an association list `List (String × T)`.
* `dict[str, Any]` values are modelled by the dynamically-typed `PyAny`.
* A pydantic model becomes a structure plus a `constructionOk` Boolean:
  pydantic raises at construction exactly when a `Field` constraint
  (`ge`/`le`) fails, on the record itself or a nested record, so
  `constructionOk r = true` says the record is constructible.  Fields with
  no `Field` constraint are unchecked, exactly as in the source.
* Enum-typed fields (`SourceType`) are checked by typing; the coercion a
  pydantic `str` enum applies to raw strings is `SourceType.fromStr`.
* Operational parts the specification describes but whose code is not in
  `src/` (the stage sequencer, artifact validators, the plan approval
  action) are modelled from the specification; each such definition says so
  in its doc comment.
-/

namespace VE

/-- Dynamically-typed value, for the `dict[str, Any]` fields
(`ParsedDocument.metadata`, `AnimationElement.properties`,
`Storyboard.style_guide`). -/
inductive PyAny where
  | str (s : String)
  | int (i : Int)
  | num (q : ℚ)
  | bool (b : Bool)
  | none
  | list (l : List PyAny)
  | dict (d : List (String × PyAny))

/-- `SourceType(str, Enum)`: type of source document. -/
inductive SourceType where
  | markdown
  | pdf
  | url
  | text
deriving DecidableEq

/-- Coercion a pydantic `str` enum applies to a raw string: succeeds exactly
on the enum's values. -/
def SourceType.fromStr (s : String) : Option SourceType :=
  if s = "markdown" then some .markdown
  else if s = "pdf" then some .pdf
  else if s = "url" then some .url
  else if s = "text" then some .text
  else none

/-- `Section`: a section of the source document. -/
structure Section where
  heading : String
  level : Int := 1
  content : String
  code_blocks : List String := []
  equations : List String := []
  images : List String := []

/-- Pydantic construction check for `Section`: the model declares no
`Field` constraint, so construction only type-checks. -/
def Section.constructionOk (_s : Section) : Bool := true

/-- `ParsedDocument`: a parsed source document. -/
structure ParsedDocument where
  title : String
  source_type : SourceType
  source_path : String
  sections : List Section
  raw_content : String
  metadata : List (String × PyAny) := []

/-- Pydantic construction check for `ParsedDocument`: no `Field`
constraints on it or on nested `Section`s. -/
def ParsedDocument.constructionOk (_d : ParsedDocument) : Bool := true

/-- `Concept`: a key concept extracted from the document. -/
structure Concept where
  name : String
  explanation : String
  complexity : Int
  prerequisites : List String := []
  analogies : List String := []
  visual_potential : String := "medium"

/-- Pydantic construction check for `Concept`:
`complexity: int = Field(ge=1, le=10)`. -/
def Concept.constructionOk (c : Concept) : Bool :=
  1 ≤ c.complexity && c.complexity ≤ 10

/-- `ContentAnalysis`: analysis of the document content. -/
structure ContentAnalysis where
  core_thesis : String
  key_concepts : List Concept
  target_audience : String
  suggested_duration_seconds : Int
  complexity_score : Int

/-- Pydantic construction check for `ContentAnalysis`:
`complexity_score: int = Field(ge=1, le=10)`, and each nested `Concept`
must itself be constructible. -/
def ContentAnalysis.constructionOk (a : ContentAnalysis) : Bool :=
  (1 ≤ a.complexity_score && a.complexity_score ≤ 10)
    && a.key_concepts.all Concept.constructionOk

/-- `VisualCue`: a visual cue annotation in the script. -/
structure VisualCue where
  description : String
  visual_type : String
  elements : List String := []
  duration_seconds : ℚ := 5

/-- `ScriptScene.scene_id` is `str | int` in the source: a tagged union. -/
inductive SceneId where
  | str (s : String)
  | int (i : Int)
deriving DecidableEq

/-- `ScriptScene`: a scene in the video script. -/
structure ScriptScene where
  scene_id : SceneId
  scene_type : String := "explanation"
  title : String
  voiceover : String
  visual_cue : VisualCue
  duration_seconds : ℚ
  notes : String := ""

/-- `Script`: the complete video script. -/
structure Script where
  title : String
  total_duration_seconds : ℚ
  scenes : List ScriptScene
  source_document : String

/-- `AnimationElement`: an element in an animation. -/
structure AnimationElement where
  id : String
  element_type : String
  properties : List (String × PyAny) := []
  appear_at : ℚ := 0
  animation : String := "fade_in"

/-- `StoryboardScene`: a scene in the storyboard with detailed visual
specs. -/
structure StoryboardScene where
  scene_id : String
  timestamp_start : ℚ
  timestamp_end : ℚ
  voiceover_text : String
  visual_type : String
  visual_description : String
  elements : List AnimationElement := []
  transitions : List (String × String) := []
  audio_path : Option String := none

/-- `Storyboard`: the complete storyboard. -/
structure Storyboard where
  title : String
  scenes : List StoryboardScene
  style_guide : List (String × PyAny) := []
  total_duration_seconds : ℚ

/-- `GeneratedAssets`: generated assets for a video, each mapping keyed by
scene_id. -/
structure GeneratedAssets where
  audio_paths : List (String × String) := []
  animation_paths : List (String × String) := []
  image_paths : List (String × String) := []

/-- `VideoProject`: complete video project state. -/
structure VideoProject where
  project_id : String
  source_path : String
  parsed_document : Option ParsedDocument := none
  content_analysis : Option ContentAnalysis := none
  script : Option Script := none
  storyboard : Option Storyboard := none
  assets : GeneratedAssets := {}
  output_path : Option String := none
  status : String := "initialized"

/-- Pydantic construction check for `VideoProject`: the project itself
declares no `Field` constraint (in particular `status` is a plain `str`),
so only nested records with constraints are checked — here the optional
`ContentAnalysis`. -/
def VideoProject.constructionOk (p : VideoProject) : Bool :=
  match p.content_analysis with
  | Option.none => true
  | some a => ContentAnalysis.constructionOk a

/-- `PlannedScene`: a planned scene in the video plan. -/
structure PlannedScene where
  scene_number : Int
  scene_type : String
  title : String
  concept_to_cover : String
  visual_approach : String
  ascii_visual : String
  estimated_duration_seconds : ℚ
  key_points : List String := []

/-- `VideoPlan`: a video plan for user review and approval before script
generation. -/
structure VideoPlan where
  status : String := "draft"
  created_at : String
  approved_at : Option String := none
  title : String
  central_question : String
  target_audience : String
  estimated_total_duration_seconds : ℚ
  core_thesis : String
  key_concepts : List String
  complexity_score : Int
  scenes : List PlannedScene
  visual_style : String
  source_document : String
  user_notes : String := ""

/-- Pydantic construction check for `VideoPlan`:
`complexity_score: int = Field(ge=1, le=10)` is the only declared
constraint — nothing relates `approved_at` to `status`. -/
def VideoPlan.constructionOk (p : VideoPlan) : Bool :=
  1 ≤ p.complexity_score && p.complexity_score ≤ 10

/-- Modelled from the spec: the error taxonomy of §7 — `ValidationError`,
`InvalidTransition`, `PlanNotApproved`, `AlreadyApproved`, `EmptyPlan`. -/
inductive PipelineError where
  | ValidationError
  | InvalidTransition
  | PlanNotApproved
  | AlreadyApproved
  | EmptyPlan
deriving DecidableEq

/-- Modelled from the spec: the fixed total order of pipeline stages,
`initialized → parsed → analyzed → scripted → storyboarded → rendered`. -/
inductive Stage where
  | initialized
  | parsed
  | analyzed
  | scripted
  | storyboarded
  | rendered
deriving DecidableEq

/-- Modelled from the spec: the immediate successor of a stage
(`rendered` is terminal). -/
def Stage.next : Stage → Option Stage
  | .initialized => some .parsed
  | .parsed => some .analyzed
  | .analyzed => some .scripted
  | .scripted => some .storyboarded
  | .storyboarded => some .rendered
  | .rendered => none

/-- The `VideoProject.status` string naming each stage (the six values the
source comment enumerates). -/
def Stage.statusStr : Stage → String
  | .initialized => "initialized"
  | .parsed => "parsed"
  | .analyzed => "analyzed"
  | .scripted => "scripted"
  | .storyboarded => "storyboarded"
  | .rendered => "rendered"

/-- Reading a `status` string back as a stage; `none` on a string outside
the enumerated set. -/
def stageOfStatus (s : String) : Option Stage :=
  if s = "initialized" then some .initialized
  else if s = "parsed" then some .parsed
  else if s = "analyzed" then some .analyzed
  else if s = "scripted" then some .scripted
  else if s = "storyboarded" then some .storyboarded
  else if s = "rendered" then some .rendered
  else none

/-- Modelled from the spec: the artifact a caller supplies for one
destination stage (the render stage delivers `GeneratedAssets` plus the
final `output_path`). -/
inductive Artifact where
  | parsedDoc (d : ParsedDocument)
  | analysis (a : ContentAnalysis)
  | script (s : Script)
  | storyboard (sb : Storyboard)
  | render (ga : GeneratedAssets) (out : String)

/-- The destination stage of an artifact. -/
def Artifact.stage : Artifact → Stage
  | .parsedDoc _ => .parsed
  | .analysis _ => .analyzed
  | .script _ => .scripted
  | .storyboard _ => .storyboarded
  | .render _ _ => .rendered

/-- Sum of the `duration_seconds` of a script's scenes. -/
def sumSceneDurations (l : List ScriptScene) : ℚ :=
  l.foldr (fun sc acc => sc.duration_seconds + acc) 0

/-- Modelled from the spec: the Script duration rule of §8 — a Script's
`total_duration_seconds` must be ≥ the sum of its scenes'
`duration_seconds` minus a defined tolerance.  The spec names the
tolerance but not its value, so it is a parameter here. -/
def scriptDurationOk (tol : ℚ) (s : Script) : Bool :=
  sumSceneDurations s.scenes - tol ≤ s.total_duration_seconds

/-- Modelled from the spec: Script validation — `ValidationError` exactly
when the duration rule is violated. -/
def validateScript (tol : ℚ) (s : Script) : Except PipelineError Unit :=
  if scriptDurationOk tol s then .ok () else .error .ValidationError

/-- Insert a storyboard scene into a list already sorted by
`timestamp_start`, keeping it sorted. -/
def insertByStart (s : StoryboardScene) :
    List StoryboardScene → List StoryboardScene
  | [] => [s]
  | t :: ts =>
    if s.timestamp_start ≤ t.timestamp_start then s :: t :: ts
    else t :: insertByStart s ts

/-- Sort a storyboard's scenes by `timestamp_start` (insertion sort). -/
def sortByStart (l : List StoryboardScene) : List StoryboardScene :=
  l.foldr insertByStart []

/-- Adjacent-pair check on an already-sorted scene list:
`timestamp_end[i] ≤ timestamp_start[i+1]` for every adjacent pair. -/
def nonOverlapping : List StoryboardScene → Bool
  | [] => true
  | [_] => true
  | a :: b :: rest =>
    a.timestamp_end ≤ b.timestamp_start && nonOverlapping (b :: rest)

/-- Modelled from the spec: Storyboard validation of §8 — scenes sorted by
`timestamp_start` must satisfy `timestamp_end[i] ≤ timestamp_start[i+1]`
for all adjacent pairs, else `ValidationError`. -/
def validateStoryboard (sb : Storyboard) : Except PipelineError Unit :=
  if nonOverlapping (sortByStart sb.scenes) then .ok ()
  else .error .ValidationError

/-- Keys of an association list. -/
def alKeys (l : List (String × String)) : List String := l.map Prod.fst

/-- The scene ids of a storyboard. -/
def Storyboard.sceneIds (sb : Storyboard) : List String :=
  sb.scenes.map StoryboardScene.scene_id

/-- Modelled from the spec: the GeneratedAssets key rule of §8 — the keys
of `audio_paths`, `animation_paths` and `image_paths` must each be a
subset of the owning Storyboard's scene_ids. -/
def assetsKeysOk (sb : Storyboard) (ga : GeneratedAssets) : Bool :=
  (alKeys ga.audio_paths).all (fun k => decide (k ∈ sb.sceneIds))
    && (alKeys ga.animation_paths).all (fun k => decide (k ∈ sb.sceneIds))
    && (alKeys ga.image_paths).all (fun k => decide (k ∈ sb.sceneIds))

/-- Modelled from the spec: §4.1's transition precondition (c) — the
artifact required to produce the destination stage's artifact must already
be present and non-null. -/
def prereqPresent (p : VideoProject) : Stage → Bool
  | .initialized => true
  | .parsed => true
  | .analyzed => p.parsed_document.isSome
  | .scripted => p.content_analysis.isSome
  | .storyboarded => p.script.isSome
  | .rendered => p.storyboard.isSome

/-- Modelled from the spec: §4.2 — when a plan-approval workflow is in use
(`plan = some pl`), scripting requires the plan be approved. -/
def planBlocks (plan : Option VideoPlan) : Bool :=
  match plan with
  | Option.none => false
  | some pl => pl.status != "approved"

/-- Modelled from the spec: the Stage Sequencer of §4.1.  Attaching an
artifact for a stage that is not the immediate successor of the project's
current status fails with `InvalidTransition` (so does a missing
prerequisite artifact); an artifact violating its structural invariant
fails with `ValidationError`; scripting while an in-use plan is not
approved fails with `PlanNotApproved`.  On success the status is advanced
and the artifact attached; the call is pure, so on error the project is
unchanged. -/
def attachArtifact (tol : ℚ) (plan : Option VideoPlan)
    (p : VideoProject) (a : Artifact) : Except PipelineError VideoProject :=
  match stageOfStatus p.status with
  | Option.none => .error .InvalidTransition
  | some s =>
    if Stage.next s ≠ some a.stage then .error .InvalidTransition
    else if ¬ prereqPresent p a.stage then .error .InvalidTransition
    else
      match a with
      | .parsedDoc d =>
        if ParsedDocument.constructionOk d then
          .ok { p with parsed_document := some d, status := "parsed" }
        else .error .ValidationError
      | .analysis an =>
        if ContentAnalysis.constructionOk an then
          .ok { p with content_analysis := some an, status := "analyzed" }
        else .error .ValidationError
      | .script sc =>
        if planBlocks plan then .error .PlanNotApproved
        else
          match validateScript tol sc with
          | .error e => .error e
          | .ok _ => .ok { p with script := some sc, status := "scripted" }
      | .storyboard sb =>
        match validateStoryboard sb with
        | .error e => .error e
        | .ok _ =>
          .ok { p with storyboard := some sb, status := "storyboarded" }
      | .render ga out =>
        match p.storyboard with
        | Option.none => .error .InvalidTransition
        | some sb =>
          if assetsKeysOk sb ga then
            .ok { p with assets := ga, output_path := some out,
                         status := "rendered" }
          else .error .ValidationError

/-- Modelled from the spec: the approval action of §4.2 — fails with
`AlreadyApproved` on an already-approved plan, with `EmptyPlan` on a plan
with zero scenes, and otherwise sets `status` to `approved` and stamps
`approved_at` with the action's timestamp. -/
def VideoPlan.approve (p : VideoPlan) (timestamp : String) :
    Except PipelineError VideoPlan :=
  if p.status = "approved" then .error .AlreadyApproved
  else if p.scenes.isEmpty then .error .EmptyPlan
  else .ok { p with status := "approved", approved_at := some timestamp }

/-! Concrete fixtures used by the witnesses, counterexamples and the
spec's concrete test cases. -/

/-- A minimal visual cue. -/
def cue0 : VisualCue := { description := "d", visual_type := "animation" }

/-- A script scene of the given duration. -/
def scn (n : String) (d : ℚ) : ScriptScene :=
  { scene_id := SceneId.str n, title := n, voiceover := "v",
    visual_cue := cue0, duration_seconds := d }

/-- The spec's concrete Script test: scene durations `[5.0, 5.0, 5.0]` with
`total_duration_seconds = 10.0`. -/
def script10 : Script :=
  { title := "t", total_duration_seconds := 10,
    scenes := [scn "s1" 5, scn "s2" 5, scn "s3" 5],
    source_document := "doc" }

/-- The same scenes with `total_duration_seconds = 15.0`. -/
def script15 : Script := { script10 with total_duration_seconds := 15 }

/-- A storyboard scene with the given id and timestamps. -/
def sbsc (n : String) (a b : ℚ) : StoryboardScene :=
  { scene_id := n, timestamp_start := a, timestamp_end := b,
    voiceover_text := "v", visual_type := "animation",
    visual_description := "d" }

/-- The spec's accepted Storyboard test: scenes `(0,5),(5,10)`. -/
def sbGood : Storyboard :=
  { title := "g", scenes := [sbsc "s1" 0 5, sbsc "s2" 5 10],
    total_duration_seconds := 10 }

/-- The spec's rejected Storyboard test: overlapping scenes `(0,5),(3,8)`. -/
def sbBad : Storyboard :=
  { title := "b", scenes := [sbsc "s1" 0 5, sbsc "s2" 3 8],
    total_duration_seconds := 8 }

/-- The spec's concrete storyboard with scene ids `intro` and `body`. -/
def sbIB : Storyboard :=
  { title := "ib", scenes := [sbsc "intro" 0 5, sbsc "body" 5 10],
    total_duration_seconds := 10 }

/-- A project at status `storyboarded` holding `sbIB`. -/
def projSB : VideoProject :=
  { project_id := "p1", source_path := "doc.md", storyboard := some sbIB,
    status := "storyboarded" }

/-- The spec's rejected GeneratedAssets test: audio key `outro` is not a
scene id of `sbIB`. -/
def gaBad : GeneratedAssets :=
  { audio_paths := [("intro", "a.wav"), ("outro", "b.wav")] }

/-- A freshly initialized project. -/
def proj0 : VideoProject := { project_id := "p0", source_path := "doc.md" }

/-- A minimal parsed document. -/
def pd0 : ParsedDocument :=
  { title := "t", source_type := .markdown, source_path := "doc.md",
    sections := [], raw_content := "r" }

/-- A minimal planned scene. -/
def ps0 : PlannedScene :=
  { scene_number := 1, scene_type := "hook", title := "t",
    concept_to_cover := "c", visual_approach := "v", ascii_visual := "art",
    estimated_duration_seconds := 10 }

/-- A draft plan with one scene. -/
def pl0 : VideoPlan :=
  { created_at := "2024-01-01", title := "t", central_question := "q",
    target_audience := "a", estimated_total_duration_seconds := 60,
    core_thesis := "th", key_concepts := [], complexity_score := 5,
    scenes := [ps0], visual_style := "minimal", source_document := "doc" }

/-- A plan with `status = draft` and a non-null `approved_at`. -/
def badPlan : VideoPlan :=
  { pl0 with approved_at := some "2024-01-02" }

/-- A minimal concept. -/
def c0 : Concept := { name := "n", explanation := "e", complexity := 5 }

/-- A minimal content analysis with no nested concepts. -/
def a0 : ContentAnalysis :=
  { core_thesis := "th", key_concepts := [], target_audience := "a",
    suggested_duration_seconds := 60, complexity_score := 5 }

/-- Empty generated assets. -/
def ga0 : GeneratedAssets := {}

/-! Helper lemmas. -/

/-- `nonOverlapping` is the adjacent-pairs chain condition. -/
theorem nonOverlapping_iff_chain (l : List StoryboardScene) :
    nonOverlapping l = true ↔
      List.Chain' (fun x y => x.timestamp_end ≤ y.timestamp_start) l := by
  match l with
  | [] => simp [nonOverlapping]
  | [a] => simp [nonOverlapping]
  | a :: b :: rest =>
    rw [nonOverlapping, Bool.and_eq_true, List.chain'_cons,
      nonOverlapping_iff_chain (b :: rest), decide_eq_true_eq]


/-- Claim C1: for every VideoProject in a recognised stage status `s`,
attaching an artifact for a stage that is not the immediate successor of
`s` fails with `InvalidTransition`; the sequencer is pure, so on error the
project is unchanged. -/
theorem spec_C1 (tol : ℚ) (plan : Option VideoPlan) (p : VideoProject)
    (a : Artifact) (s : Stage) (hs : stageOfStatus p.status = some s)
    (hnext : Stage.next s ≠ some a.stage) :
    attachArtifact tol plan p a = .error .InvalidTransition := by
  unfold attachArtifact
  rw [hs]
  simp [hnext]

/-- Witness for C1: an initialized project rejects a stage-N+2 script
artifact with `InvalidTransition`. -/
theorem spec_C1_witness :
    attachArtifact 0 Option.none proj0 (.script script15) =
      .error .InvalidTransition :=
  spec_C1 0 Option.none proj0 (.script script15) .initialized rfl
    (by decide)

/-- Claim C4: approving a VideoPlan fails with `AlreadyApproved` on an
already-approved plan, with `EmptyPlan` on a non-approved plan with zero
scenes, and otherwise sets `status` to approved and stamps `approved_at`
with the action's timestamp; any plan obtained from a successful approve
rejects a second approve with `AlreadyApproved`. -/
theorem spec_C4 (p : VideoPlan) (t : String) :
    (p.status = "approved" → p.approve t = .error .AlreadyApproved) ∧
    (p.status ≠ "approved" → p.scenes = [] →
        p.approve t = .error .EmptyPlan) ∧
    (p.status ≠ "approved" → p.scenes ≠ [] →
        p.approve t =
          .ok { p with status := "approved", approved_at := some t }) ∧
    (∀ (q : VideoPlan) (u : String),
        p.approve t = .ok q → q.approve u = .error .AlreadyApproved) := by
  refine ⟨?_, ?_, ?_, ?_⟩
  · intro h
    simp [VideoPlan.approve, h]
  · intro h hsc
    simp [VideoPlan.approve, h, hsc]
  · intro h hsc
    simp [VideoPlan.approve, h, hsc]
  · intro q u h
    unfold VideoPlan.approve at h ⊢
    by_cases hap : p.status = "approved"
    · simp [hap] at h
    · by_cases hsc : p.scenes.isEmpty
      · simp [hap, hsc] at h
      · simp [hap, hsc] at h
        simp [← h]

/-- Witness for C4: the one-scene draft plan `pl0` approves successfully,
and the resulting plan rejects a second approve with `AlreadyApproved`. -/
theorem spec_C4_witness :
    pl0.approve "t1" =
        .ok { pl0 with status := "approved", approved_at := some "t1" } ∧
      VideoPlan.approve
          { pl0 with status := "approved", approved_at := some "t1" } "t2" =
        .error .AlreadyApproved := by
  have h1 := (spec_C4 pl0 "t1").2.2.1 (by decide) (by simp [pl0])
  exact ⟨h1, (spec_C4 pl0 "t1").2.2.2 _ "t2" h1⟩

/-- Counterexample to C5: a VideoPlan with `status = "draft"` and a
non-null `approved_at` passes pydantic construction — the model declares
no constraint relating the two fields. -/
theorem spec_C5_cex :
    VideoPlan.constructionOk badPlan = true ∧
      badPlan.status = "draft" ∧ badPlan.approved_at = some "2024-01-02" :=
  ⟨rfl, rfl, rfl⟩

/-- Claim C5 (amended): construction validates only
`complexity_score ∈ [1,10]` and is insensitive to `status` and
`approved_at`, so a draft plan with non-null `approved_at` is
constructible; a successful approve action always yields
`status = "approved"` with `approved_at` stamped non-null. -/
theorem spec_C5 :
    (∀ (p : VideoPlan) (t : String) (q : VideoPlan),
        p.approve t = .ok q →
          q.status = "approved" ∧ q.approved_at = some t) ∧
    (∀ (p : VideoPlan) (st : String) (ts : Option String),
        VideoPlan.constructionOk { p with status := st, approved_at := ts } =
          VideoPlan.constructionOk p) := by
  constructor
  · intro p t q h
    unfold VideoPlan.approve at h
    by_cases hap : p.status = "approved"
    · simp [hap] at h
    · by_cases hsc : p.scenes.isEmpty
      · simp [hap, hsc] at h
      · simp [hap, hsc] at h
        simp [← h]
  · intro p st ts
    rfl

/-- Witness for C5: approving the draft plan `pl0` yields an approved plan
with `approved_at` stamped. -/
theorem spec_C5_witness :
    VideoPlan.status
          { pl0 with status := "approved", approved_at := some "t1" } =
        "approved" ∧
      VideoPlan.approved_at
          { pl0 with status := "approved", approved_at := some "t1" } =
        some "t1" :=
  spec_C5.1 pl0 "t1" _ rfl

/-- Claim C6: `Concept.complexity` and `ContentAnalysis.complexity_score`
outside `[1,10]` are rejected at construction and values inside are
accepted (for an analysis whose nested concepts are themselves
constructible); boundary values 0 and 11 are rejected. -/
theorem spec_C6 (c : Concept) (a : ContentAnalysis)
    (hn : a.key_concepts.all Concept.constructionOk = true) :
    (Concept.constructionOk c = true ↔
        1 ≤ c.complexity ∧ c.complexity ≤ 10) ∧
    (ContentAnalysis.constructionOk a = true ↔
        1 ≤ a.complexity_score ∧ a.complexity_score ≤ 10) ∧
    Concept.constructionOk { c with complexity := 0 } = false ∧
    Concept.constructionOk { c with complexity := 11 } = false ∧
    ContentAnalysis.constructionOk { a with complexity_score := 0 } = false ∧
    ContentAnalysis.constructionOk { a with complexity_score := 11 } = false := by
  refine ⟨?_, ?_, ?_, ?_, ?_, ?_⟩ <;>
    simp [Concept.constructionOk, ContentAnalysis.constructionOk, hn]

/-- Witness for C6: the concrete concept `c0` (complexity 5) and analysis
`a0` (complexity_score 5, no nested concepts) are rejected at the
boundary values 0 and 11. -/
theorem spec_C6_witness :
    Concept.constructionOk { c0 with complexity := 0 } = false ∧
      ContentAnalysis.constructionOk { a0 with complexity_score := 11 } =
        false :=
  ⟨(spec_C6 c0 a0 rfl).2.2.1, (spec_C6 c0 a0 rfl).2.2.2.2.2⟩

/-- Counterexample to C8: a Section with `level = 0` passes pydantic
construction — the source declares `level: int = 1` with no `Field`
bound. -/
theorem spec_C8_cex :
    Section.constructionOk
        { heading := "h", level := 0, content := "c" } = true ∧
      Section.level { heading := "h", level := 0, content := "c" } = 0 :=
  ⟨rfl, rfl⟩

/-- Claim C8 (amended): Section construction does not constrain the
nesting level — any integer level, including 0 and negatives, is accepted
(the source merely defaults `level` to 1). -/
theorem spec_C8 :
    ∀ l : Int,
      Section.constructionOk { heading := "h", level := l, content := "c" } =
        true :=
  fun _ => rfl

/-- Claim C10: VideoProject construction accepts any `status` string — the
enumerated set is a comment, not a constraint — and `constructionOk` is
insensitive to `status`; enum membership is enforced only for
`SourceType`, whose string coercion succeeds exactly on the four enum
values. -/
theorem spec_C10 :
    (∀ st : String,
        VideoProject.constructionOk
          { project_id := "p", source_path := "doc.md", status := st } =
          true) ∧
    (∀ (p : VideoProject) (st : String),
        VideoProject.constructionOk { p with status := st } =
          VideoProject.constructionOk p) ∧
    (∀ s : String,
        (SourceType.fromStr s).isSome = true ↔
          s = "markdown" ∨ s = "pdf" ∨ s = "url" ∨ s = "text") := by
  refine ⟨fun st => rfl, fun p st => rfl, ?_⟩
  intro s
  unfold SourceType.fromStr
  split_ifs with h1 h2 h3 h4 <;> simp_all

/-- Claim C2: Script validation fails with `ValidationError` exactly when
`total_duration_seconds` is less than the sum of the scenes'
`duration_seconds` minus the tolerance, and accepts otherwise; for any
tolerance in `[0, 5)` the spec's concrete tests behave as stated —
durations `[5,5,5]` with total 10 rejected, with total 15 accepted. -/
theorem spec_C2 :
    (∀ (tol : ℚ) (s : Script),
        validateScript tol s = .error .ValidationError ↔
          s.total_duration_seconds < sumSceneDurations s.scenes - tol) ∧
    (∀ (tol : ℚ) (s : Script),
        validateScript tol s = .ok () ↔
          sumSceneDurations s.scenes - tol ≤ s.total_duration_seconds) ∧
    (∀ tol : ℚ, 0 ≤ tol → tol < 5 →
        validateScript tol script10 = .error .ValidationError ∧
          validateScript tol script15 = .ok ()) := by
  have herr : ∀ (tol : ℚ) (s : Script),
      validateScript tol s = .error .ValidationError ↔
        s.total_duration_seconds < sumSceneDurations s.scenes - tol := by
    intro tol s
    unfold validateScript scriptDurationOk
    by_cases h : sumSceneDurations s.scenes - tol ≤ s.total_duration_seconds
    · simp [h, not_lt.mpr h]
    · simp [h, not_le.mp h]
  have hok : ∀ (tol : ℚ) (s : Script),
      validateScript tol s = .ok () ↔
        sumSceneDurations s.scenes - tol ≤ s.total_duration_seconds := by
    intro tol s
    unfold validateScript scriptDurationOk
    by_cases h : sumSceneDurations s.scenes - tol ≤ s.total_duration_seconds
    · simp [h]
    · simp [h]
  refine ⟨herr, hok, ?_⟩
  intro tol h0 h5
  have hsum : sumSceneDurations script10.scenes = 15 := by
    norm_num [sumSceneDurations, script10, scn]
  have hsum15 : sumSceneDurations script15.scenes = 15 := hsum
  have ht10 : script10.total_duration_seconds = 10 := rfl
  have ht15 : script15.total_duration_seconds = 15 := rfl
  constructor
  · rw [herr, hsum, ht10]
    linarith
  · rw [hok, hsum15, ht15]
    linarith

/-- Witness for C2: at tolerance 0 the concrete tests evaluate as the
claim states. -/
theorem spec_C2_witness :
    validateScript 0 script10 = .error .ValidationError ∧
      validateScript 0 script15 = .ok () :=
  spec_C2.2.2 0 le_rfl (by norm_num)

/-- Claim C3: Storyboard validation accepts exactly the storyboards whose
scenes, sorted by `timestamp_start`, satisfy
`timestamp_end[i] ≤ timestamp_start[i+1]` for all adjacent pairs; the
spec's concrete tests — scenes `(0,5),(5,10)` accepted, overlapping
scenes `(0,5),(3,8)` rejected with `ValidationError`. -/
theorem spec_C3 :
    (∀ sb : Storyboard,
        validateStoryboard sb = .ok () ↔
          List.Chain' (fun x y => x.timestamp_end ≤ y.timestamp_start)
            (sortByStart sb.scenes)) ∧
    validateStoryboard sbGood = .ok () ∧
    validateStoryboard sbBad = .error .ValidationError := by
  refine ⟨?_, rfl, rfl⟩
  intro sb
  rw [← nonOverlapping_iff_chain]
  unfold validateStoryboard
  by_cases h : nonOverlapping (sortByStart sb.scenes) = true <;> simp [h]

/-- Claim C7: the GeneratedAssets key check holds iff the keys of
`audio_paths`, `animation_paths` and `image_paths` are each a subset of
the storyboard's scene_ids; any assets successfully attached to a project
whose storyboard is present satisfy it; attaching assets with audio key
`outro` against storyboard scenes `intro`, `body` is rejected with
`ValidationError`. -/
theorem spec_C7 :
    (∀ (sb : Storyboard) (ga : GeneratedAssets),
        assetsKeysOk sb ga = true ↔
          ((∀ k ∈ alKeys ga.audio_paths, k ∈ sb.sceneIds) ∧
            (∀ k ∈ alKeys ga.animation_paths, k ∈ sb.sceneIds) ∧
            (∀ k ∈ alKeys ga.image_paths, k ∈ sb.sceneIds))) ∧
    (∀ (tol : ℚ) (plan : Option VideoPlan) (p : VideoProject)
        (ga : GeneratedAssets) (out : String) (q : VideoProject)
        (sb : Storyboard), p.storyboard = some sb →
        attachArtifact tol plan p (.render ga out) = .ok q →
        assetsKeysOk sb ga = true) ∧
    attachArtifact 0 Option.none projSB (.render gaBad "out.mp4") =
      .error .ValidationError := by
  refine ⟨?_, ?_, rfl⟩
  · intro sb ga
    simp [assetsKeysOk, List.all_eq_true, and_assoc]
  · intro tol plan p ga out q sb hsb h
    unfold attachArtifact at h
    cases hst : stageOfStatus p.status with
    | none => rw [hst] at h; exact absurd h (by simp)
    | some s =>
      rw [hst] at h
      dsimp only at h
      by_cases h1 : Stage.next s ≠ some (Artifact.render ga out).stage
      · rw [if_pos h1] at h
        exact absurd h (by simp)
      · rw [if_neg h1] at h
        by_cases h2 : prereqPresent p (Artifact.render ga out).stage = true
        · rw [if_neg (by simpa using h2)] at h
          rw [hsb] at h
          dsimp only at h
          by_cases h3 : assetsKeysOk sb ga = true
          · exact h3
          · rw [if_neg h3] at h
            exact absurd h (by simp)
        · rw [if_pos (by simpa using h2)] at h
          exact absurd h (by simp)

/-- Witness for C7: a project holding storyboard `sbIB` that successfully
attaches empty generated assets satisfies the key check. -/
theorem spec_C7_witness :
    assetsKeysOk sbIB ga0 = true :=
  spec_C7.2.1 0 Option.none projSB ga0 "out.mp4"
    { projSB with
        assets := ga0, output_path := some "out.mp4", status := "rendered" }
    sbIB rfl rfl

/-- Claim C9: a successful stage transition is the only mutation point and
only attaches: it preserves `project_id` and `source_path`, leaves every
artifact field other than the destination stage's untouched, and stores
the supplied artifact unchanged in the destination field. -/
theorem spec_C9 (tol : ℚ) (plan : Option VideoPlan) (p : VideoProject)
    (a : Artifact) (q : VideoProject)
    (h : attachArtifact tol plan p a = .ok q) :
    q.project_id = p.project_id ∧ q.source_path = p.source_path ∧
    (a.stage ≠ .parsed → q.parsed_document = p.parsed_document) ∧
    (a.stage ≠ .analyzed → q.content_analysis = p.content_analysis) ∧
    (a.stage ≠ .scripted → q.script = p.script) ∧
    (a.stage ≠ .storyboarded → q.storyboard = p.storyboard) ∧
    (a.stage ≠ .rendered →
        q.assets = p.assets ∧ q.output_path = p.output_path) ∧
    (∀ d, a = .parsedDoc d → q.parsed_document = some d) ∧
    (∀ an, a = .analysis an → q.content_analysis = some an) ∧
    (∀ sc, a = .script sc → q.script = some sc) ∧
    (∀ sb, a = .storyboard sb → q.storyboard = some sb) ∧
    (∀ ga out, a = .render ga out →
        q.assets = ga ∧ q.output_path = some out) := by
  unfold attachArtifact at h
  cases hst : stageOfStatus p.status with
  | none => rw [hst] at h; exact absurd h (by simp)
  | some s =>
    rw [hst] at h
    dsimp only at h
    by_cases h1 : Stage.next s ≠ some a.stage
    · rw [if_pos h1] at h
      exact absurd h (by simp)
    · rw [if_neg h1] at h
      by_cases h2 : prereqPresent p a.stage = true
      · rw [if_neg (by simpa using h2)] at h
        cases a with
        | parsedDoc d =>
          dsimp only at h
          by_cases hc : ParsedDocument.constructionOk d = true
          · rw [if_pos hc] at h
            simp only [Except.ok.injEq] at h
            subst h
            simp [Artifact.stage]
          · rw [if_neg hc] at h
            exact absurd h (by simp)
        | analysis an =>
          dsimp only at h
          by_cases hc : ContentAnalysis.constructionOk an = true
          · rw [if_pos hc] at h
            simp only [Except.ok.injEq] at h
            subst h
            simp [Artifact.stage]
          · rw [if_neg hc] at h
            exact absurd h (by simp)
        | script sc =>
          dsimp only at h
          by_cases hb : planBlocks plan = true
          · rw [if_pos hb] at h
            exact absurd h (by simp)
          · rw [if_neg hb] at h
            cases hv : validateScript tol sc with
            | error e =>
              rw [hv] at h
              exact absurd h (by simp)
            | ok u =>
              rw [hv] at h
              simp only [Except.ok.injEq] at h
              subst h
              simp [Artifact.stage]
        | storyboard sb =>
          dsimp only at h
          cases hv : validateStoryboard sb with
          | error e =>
            rw [hv] at h
            exact absurd h (by simp)
          | ok u =>
            rw [hv] at h
            simp only [Except.ok.injEq] at h
            subst h
            simp [Artifact.stage]
        | render ga out =>
          dsimp only at h
          cases hsb : p.storyboard with
          | none =>
            rw [hsb] at h
            exact absurd h (by simp)
          | some sb =>
            rw [hsb] at h
            dsimp only at h
            by_cases hk : assetsKeysOk sb ga = true
            · rw [if_pos hk] at h
              simp only [Except.ok.injEq] at h
              subst h
              simp [Artifact.stage]
            · rw [if_neg hk] at h
              exact absurd h (by simp)
      · rw [if_pos (by simpa using h2)] at h
        exact absurd h (by simp)

/-- Witness for C9: attaching a parsed document to the initialized project
`proj0` leaves the script field unchanged. -/
theorem spec_C9_witness :
    VideoProject.script
        { proj0 with parsed_document := some pd0, status := "parsed" } =
      VideoProject.script proj0 :=
  ((spec_C9 0 Option.none proj0 (.parsedDoc pd0)
      { proj0 with parsed_document := some pd0, status := "parsed" }
      rfl).2.2.2.2.1) (by decide)

end VE
